import Mathlib

/-!
Verification of the Mafqood mobile client's match-classification and
submission pipeline against its source.

Similarity scores and thresholds are modelled as exact rationals (ℚ);
JavaScript strings become Lean `String`s; the single `fetch` performed by
each API call is modelled by passing the call its one `FetchOutcome`;
thrown errors / promise rejections become `Except` errors.
-/

namespace Mafqood

/-- JavaScript string truthiness: the empty string is falsy. -/
def strTruthy (s : String) : Bool := !s.isEmpty

/-- Character-wise string map, modelling a global single-character
`replace`; defined on the underlying character list so that it evaluates
inside the kernel. -/
def strMap (f : Char → Char) (s : String) : String := ⟨s.data.map f⟩

/-- JavaScript `String.prototype.startsWith` on the underlying character
list (same semantics as `String.startsWith`, kernel-evaluable). -/
def strStartsWith (s pre : String) : Bool := pre.data.isPrefixOf s.data

/-- JS truthiness of an optional string field: `undefined` and `""` are falsy. -/
def optTruthy : Option String → Bool
  | none => false
  | some s => strTruthy s

/-- JS `a || b` on strings. -/
def strOr (a b : String) : String := if strTruthy a then a else b

/-- `Math.round` for a nonnegative argument: round half up, i.e. ⌊x + 1/2⌋.
All inputs in this client are `similarity * 100` with similarity in [0,1]. -/
def mathRound (q : ℚ) : ℤ := ⌊q + 1/2⌋

/-- Backend item as it appears in a `MatchResult` (shape from
`types/itemTypes` usage in `ReportItemScreen.convertToMatch`). -/
structure RemoteItem where
  id : Nat
  image_url : String
  location_type : String
  location_detail : Option String
  time_frame : String
  description : Option String
  title : Option String
  created_at : String
  deriving Repr, DecidableEq

/-- One backend match: an item plus a similarity score in [0,1]. -/
structure MatchResult where
  item : RemoteItem
  similarity : ℚ
  deriving Repr, DecidableEq

/-- Display item produced by `convertToMatch` (source field `where` is a Lean
keyword, renamed `whereLoc`; `when` renamed `whenTime`). -/
structure MatchItem where
  id : String
  type : String
  imageUrl : String
  whereLoc : String
  specificPlace : Option String
  whenTime : String
  description : String
  timestamp : String
  deriving Repr, DecidableEq

/-- Display match model: `similarity` is the rounded percentage,
`status` is the `"high"` / `"possible"` label. -/
structure Match where
  id : String
  item : MatchItem
  similarity : ℤ
  status : String
  deriving Repr, DecidableEq

/-- `matches.filter(m => m.similarity >= MATCH_THRESHOLD)` from
`ReportItemScreen` (`filteredMatches`); the threshold is a configuration
constant, taken here as a parameter. -/
def filteredMatches (threshold : ℚ) (results : List MatchResult) : List MatchResult :=
  results.filter (fun m => threshold ≤ m.similarity)

/-- Character-level effect of `replace(/\\/g, '/')`. -/
def backslashToSlash (c : Char) : Char := if c = '\\' then '/' else c

/-- `buildImageUrl` from the API client: empty input stays empty,
backslashes become forward slashes, absolute http(s) URLs pass through,
anything else is `/`-prefixed if needed and appended to the base URL. -/
def buildImageUrl (baseUrl : String) (imageUrl : String) : String :=
  if imageUrl.isEmpty then ""
  else
    let normalized := strMap backslashToSlash imageUrl
    if strStartsWith normalized "http://" || strStartsWith normalized "https://" then
      normalized
    else
      let path := if strStartsWith normalized "/" then normalized else "/" ++ normalized
      baseUrl ++ path

/-- `convertToMatch` from `ReportItemScreen`: derives the display model from a
`MatchResult`. `t` is the translation function, `isLost` the report type,
`high` the `HIGH_MATCH_THRESHOLD` configuration constant, `baseUrl` the
configured API base URL. -/
def convertToMatch (t : String → String) (isLost : Bool) (baseUrl : String)
    (high : ℚ) (matchResult : MatchResult) : Match :=
  { id := toString matchResult.item.id
    item :=
      { id := toString matchResult.item.id
        type := if isLost then "found" else "lost"
        imageUrl := buildImageUrl baseUrl matchResult.item.image_url
        whereLoc := strOr matchResult.item.location_type "Unknown"
        specificPlace :=
          match matchResult.item.location_detail with
          | none => none
          | some d => if strTruthy d then some d else none
        whenTime := strOr matchResult.item.time_frame "Unknown"
        description :=
          strOr (strOr (matchResult.item.description.getD "")
            (matchResult.item.title.getD "")) (t "no_description")
        timestamp := matchResult.item.created_at }
    similarity := mathRound (matchResult.similarity * 100)
    status := if high ≤ matchResult.similarity then "high" else "possible" }

/-- `matches.some(m => m.similarity >= 75)` from the `ItemCard` component:
the high-match indicator, over rounded percentage similarities, with the
75 cut-off hard-coded (no threshold parameter). -/
def hasHighMatch (results : List Match) : Bool :=
  results.any (fun m => 75 ≤ m.similarity)

/-- The file reference inside a `SubmitItemPayload` (`{uri, name, type}`). -/
structure FileRef where
  uri : String
  name : String
  type : String
  deriving Repr, DecidableEq

/-- In-memory payload of one report, camelCase as in `types/itemTypes`. -/
structure SubmitItemPayload where
  file : FileRef
  title : String
  description : Option String
  locationType : String
  locationDetail : Option String
  timeFrame : String
  deriving Repr, DecidableEq

/-- A value appended to a `FormData`: the binary file part or a string. -/
inductive FormValue where
  | file (uri name type : String)
  | str (s : String)
  deriving Repr, DecidableEq

/-- `buildFormData` from the API client: ordered multipart fields with
snake_case wire keys; the optional `description` / `location_detail`
fields are appended only when JS-truthy. -/
def buildFormData (payload : SubmitItemPayload) : List (String × FormValue) :=
  [("file", FormValue.file payload.file.uri payload.file.name payload.file.type),
   ("title", FormValue.str payload.title)]
  ++ (match payload.description with
      | some d => if strTruthy d then [("description", FormValue.str d)] else []
      | none => [])
  ++ [("location_type", FormValue.str payload.locationType)]
  ++ (match payload.locationDetail with
      | some d => if strTruthy d then [("location_detail", FormValue.str d)] else []
      | none => [])
  ++ [("time_frame", FormValue.str payload.timeFrame)]

/-- `response.ok` of the Fetch API: status in the inclusive range 200-299. -/
def respOk (status : Nat) : Bool := 200 ≤ status && status ≤ 299

/-- Outcome of the single `fetch` performed by an API call: either the
promise rejects at transport level (no response received, `msg` is the
transport error's own message), or a response with a status arrives;
`bodyText` is `none` when reading the body as text fails, and `json` is
`none` when parsing the body as JSON (of type `α`) fails. -/
inductive FetchOutcome (α : Type) where
  | networkError (msg : String)
  | response (status : Nat) (bodyText : Option String) (json : Option α)
  deriving Repr, DecidableEq

/-- How an API call fails: a propagated transport-level rejection (carries
no HTTP status), an `Error` thrown by the client with a message, or a
rejection of `response.json()`. -/
inductive ApiError where
  | network (msg : String)
  | thrown (msg : String)
  | jsonParseError
  deriving Repr, DecidableEq

/-- `.catch(() => 'Unknown error')` around `response.text()`. -/
def errorTextOf (bodyText : Option String) : String := bodyText.getD "Unknown error"

/-- Success shape of the lost/found submission endpoints: the matches list
(plus backend-assigned fields not used by the claims). -/
structure LostItemResponse where
  results : List MatchResult
  deriving Repr, DecidableEq

/-- Success shape of the health endpoint. -/
structure HealthResponse where
  status : String
  version : String
  timestamp : String
  deriving Repr, DecidableEq

/-- `submitLostItem` from the API client, applied to the outcome of its one
`fetch` (the function performs exactly one fetch attempt by construction):
a transport rejection propagates unchanged; a non-ok response throws
`Failed to submit lost item: <status> - <errorText>`; an ok response is
parsed as JSON. -/
def submitLostItem (o : FetchOutcome LostItemResponse) : Except ApiError LostItemResponse :=
  match o with
  | .networkError m => .error (.network m)
  | .response status bodyText json =>
    if respOk status then
      match json with
      | some data => .ok data
      | none => .error .jsonParseError
    else
      .error (.thrown
        ("Failed to submit lost item: " ++ toString status ++ " - " ++ errorTextOf bodyText))

/-- `submitFoundItem` from the API client; identical to `submitLostItem` up
to the message prefix. -/
def submitFoundItem (o : FetchOutcome LostItemResponse) : Except ApiError LostItemResponse :=
  match o with
  | .networkError m => .error (.network m)
  | .response status bodyText json =>
    if respOk status then
      match json with
      | some data => .ok data
      | none => .error .jsonParseError
    else
      .error (.thrown
        ("Failed to submit found item: " ++ toString status ++ " - " ++ errorTextOf bodyText))

/-- `checkHealth` from the API client: a non-ok response throws the generic
`Backend is not reachable` error; note the transport-level rejection of the
`fetch` itself is not caught and propagates unchanged. -/
def checkHealth (o : FetchOutcome HealthResponse) : Except ApiError HealthResponse :=
  match o with
  | .networkError m => .error (.network m)
  | .response status _ json =>
    if respOk status then
      match json with
      | some data => .ok data
      | none => .error .jsonParseError
    else
      .error (.thrown "Backend is not reachable")

/-- `s1` occurs as a contiguous substring of `s`. -/
def containsStr (s sub : String) : Prop := ∃ a b, s = a ++ sub ++ b

/-- Form state of `ReportItemScreen` (`where` / `when` are Lean keywords,
renamed `whereLoc` / `whenTime`; `image: null` becomes `none`). -/
structure ItemFormData where
  image : Option FileRef
  whereLoc : String
  specificPlace : String
  whenTime : String
  description : String
  deriving Repr, DecidableEq

/-- The empty form `handleSubmit` resets to after a successful submission. -/
def emptyFormData : ItemFormData :=
  { image := none, whereLoc := "", specificPlace := "", whenTime := "", description := "" }

/-- UI state of `ReportItemScreen` touched by `handleSubmit`. -/
structure ScreenState where
  formData : ItemFormData
  results : List MatchResult
  isSubmitting : Bool
  showSuccessModal : Bool
  error : Option String
  deriving Repr, DecidableEq

/-- Outcome of the awaited submit call inside `handleSubmit`: success with
the parsed response, or a throw (`some msg` when the thrown value is an
`Error` with that message, `none` for a non-`Error` value). -/
inductive SubmitOutcome where
  | success (resp : LostItemResponse)
  | failure (errMsg : Option String)
  deriving Repr, DecidableEq

/-- The payload `handleSubmit` builds from the form once validation passes
(the `||`-fallbacks follow JS truthiness on the form's strings). -/
def payloadOfForm (isLost : Bool) (fd : ItemFormData) (img : FileRef) : SubmitItemPayload :=
  { file := img
    title := strOr fd.description
      ((if isLost then "Lost" else "Found") ++ " item at " ++ fd.whereLoc)
    description := if strTruthy fd.description then some fd.description else none
    locationType := fd.whereLoc
    locationDetail := if strTruthy fd.specificPlace then some fd.specificPlace else none
    timeFrame := fd.whenTime }

/-- The request `handleSubmit` issues: `none` when a validation check makes
it return early without any network call, `some payload` otherwise. -/
def submitRequest (isLost : Bool) (fd : ItemFormData) : Option SubmitItemPayload :=
  match fd.image with
  | none => none
  | some img =>
    if fd.whereLoc.isEmpty then none
    else if fd.whenTime.isEmpty then none
    else some (payloadOfForm isLost fd img)

/-- `handleSubmit` from `ReportItemScreen` as a state transition on the
screen state, given the outcome of the submit call. Validation failures
return early setting a field-specific error; on success the matches are
stored, the success modal shown and the form reset; on a throw the error
message is stored; `isSubmitting` ends `false` on both paths (`finally`). -/
def handleSubmit (t : String → String) (st : ScreenState) (outcome : SubmitOutcome) :
    ScreenState :=
  if st.formData.image.isNone then
    { st with error := some (t "error_image_required") }
  else if st.formData.whereLoc.isEmpty then
    { st with error := some (t "error_location_required") }
  else if st.formData.whenTime.isEmpty then
    { st with error := some (t "error_time_required") }
  else
    match outcome with
    | .success resp =>
      { st with results := resp.results
                showSuccessModal := true
                formData := emptyFormData
                error := none
                isSubmitting := false }
    | .failure errMsg =>
      { st with error := some (errMsg.getD (t "error_generic"))
                isSubmitting := false }

/-! Concrete example values used by witnesses. -/

/-- Example backend item. -/
def itemA : RemoteItem :=
  { id := 1, image_url := "uploads\\a.png", location_type := "library",
    location_detail := none, time_frame := "today",
    description := some "black wallet", title := none,
    created_at := "2025-01-01T00:00:00Z" }

/-- Second example backend item. -/
def itemB : RemoteItem :=
  { id := 2, image_url := "uploads/b.png", location_type := "cafeteria",
    location_detail := some "table 3", time_frame := "this week",
    description := none, title := some "keys", created_at := "2025-01-02T00:00:00Z" }

/-- Example match with similarity 0.9. -/
def mrHigh : MatchResult := { item := itemA, similarity := mkRat 9 10 }

/-- Example match with similarity 0.6. -/
def mrLow : MatchResult := { item := itemB, similarity := mkRat 3 5 }

/-! Theorems for the claims. -/

/-- C1: `filteredMatches` returns exactly the subsequence of the backend
results whose similarity is ≥ the threshold (inclusive), preserving the
original relative order: it is a sublist of the input, every kept element
meets the threshold, every input element meeting the threshold is kept, and
any sublist of elements meeting the threshold is a sublist of it; with
similarities in [0,1], threshold 0 keeps everything and threshold 1.01
keeps nothing; the empty list maps to the empty list. -/
theorem filteredMatches_exact (t : ℚ) (results : List MatchResult) :
    List.Sublist (filteredMatches t results) results
    ∧ (∀ m ∈ filteredMatches t results, t ≤ m.similarity)
    ∧ (∀ m ∈ results, t ≤ m.similarity → m ∈ filteredMatches t results)
    ∧ (∀ l, List.Sublist l results → (∀ m ∈ l, t ≤ m.similarity) →
        List.Sublist l (filteredMatches t results))
    ∧ ((∀ m ∈ results, 0 ≤ m.similarity) → filteredMatches 0 results = results)
    ∧ ((∀ m ∈ results, m.similarity ≤ 1) → filteredMatches (101/100) results = [])
    ∧ filteredMatches t [] = [] := by
  refine ⟨List.filter_sublist _, ?_, ?_, ?_, ?_, ?_, rfl⟩
  · intro m hm
    exact of_decide_eq_true (List.mem_filter.mp hm).2
  · intro m hm hsim
    exact List.mem_filter.mpr ⟨hm, decide_eq_true hsim⟩
  · intro l hsub hall
    have hl : l.filter (fun m => decide (t ≤ m.similarity)) = l :=
      List.filter_eq_self.mpr (fun m hm => decide_eq_true (hall m hm))
    have h2 := List.Sublist.filter (fun m => decide (t ≤ m.similarity)) hsub
    rw [hl] at h2
    exact h2
  · intro hpos
    exact List.filter_eq_self.mpr (fun m hm => decide_eq_true (hpos m hm))
  · intro hbound
    refine List.filter_eq_nil_iff.mpr (fun m hm => ?_)
    simp only [decide_eq_true_eq]
    intro hle
    have := hbound m hm
    linarith

/-- C1 witness: at threshold 0 the two example matches (similarities 0.9 and
0.6, both in [0,1]) are all kept, and at threshold 1.01 none are. -/
theorem filteredMatches_exact_witness :
    filteredMatches 0 [mrHigh, mrLow] = [mrHigh, mrLow]
    ∧ filteredMatches (101/100) [mrHigh, mrLow] = [] :=
  ⟨(filteredMatches_exact 0 [mrHigh, mrLow]).2.2.2.2.1 (by decide),
   (filteredMatches_exact (101/100) [mrHigh, mrLow]).2.2.2.2.2.1 (by decide)⟩
/-- C2: the `status` field computed by `convertToMatch` is `"high"` exactly
when the similarity is ≥ the high threshold (inclusive at the threshold) and
`"possible"` exactly otherwise, for every translation function, report type,
base URL, threshold and match result; being a pure function of its
arguments, the classification of the same value is the same on every call. -/
theorem convertToMatch_status_classify (t : String → String) (isLost : Bool)
    (baseUrl : String) (high : ℚ) (mr : MatchResult) :
    ((convertToMatch t isLost baseUrl high mr).status = "high" ↔ high ≤ mr.similarity)
    ∧ ((convertToMatch t isLost baseUrl high mr).status = "possible" ↔ ¬ high ≤ mr.similarity)
    ∧ (convertToMatch t isLost baseUrl high mr).status
        = (convertToMatch t isLost baseUrl high mr).status := by
  have hne : ("high" : String) ≠ "possible" := by decide
  by_cases h : high ≤ mr.similarity
  · simp [convertToMatch, h]
  · simp [convertToMatch, h, hne]

/-- C3: `buildImageUrl` returns the empty string on empty input; otherwise,
with every backslash replaced by a forward slash, a string starting with
`http://` or `https://` is returned unchanged; a normalized string starting
with `/` is appended to the base URL with no extra slash; any other string
is prefixed with exactly one `/` and appended to the base URL. -/
theorem buildImageUrl_cases (base p : String) :
    buildImageUrl base "" = ""
    ∧ (p.isEmpty = false →
        (strStartsWith (strMap backslashToSlash p) "http://"
          || strStartsWith (strMap backslashToSlash p) "https://") = true →
        buildImageUrl base p = strMap backslashToSlash p)
    ∧ (p.isEmpty = false →
        (strStartsWith (strMap backslashToSlash p) "http://"
          || strStartsWith (strMap backslashToSlash p) "https://") = false →
        strStartsWith (strMap backslashToSlash p) "/" = true →
        buildImageUrl base p = base ++ strMap backslashToSlash p)
    ∧ (p.isEmpty = false →
        (strStartsWith (strMap backslashToSlash p) "http://"
          || strStartsWith (strMap backslashToSlash p) "https://") = false →
        strStartsWith (strMap backslashToSlash p) "/" = false →
        buildImageUrl base p = base ++ "/" ++ strMap backslashToSlash p) := by
  refine ⟨rfl, ?_, ?_, ?_⟩
  · intro hne hhttp
    simp [buildImageUrl, hne, hhttp]
  · intro hne hhttp hslash
    simp [buildImageUrl, hne, hhttp, hslash]
  · intro hne hhttp hslash
    simp [buildImageUrl, hne, hhttp, hslash, String.append_assoc]

/-- C3 witness: a Windows-style relative path is normalized and appended to
the base URL behind a single slash. -/
theorem buildImageUrl_cases_witness :
    buildImageUrl "http://h" "uploads\\a\\b.png" = "http://h/uploads/a/b.png" := by
  have h := (buildImageUrl_cases "http://h" "uploads\\a\\b.png").2.2.2
    (by decide) (by decide) (by decide)
  rw [h]
  decide

/-- C4: on a non-success HTTP status the submission call fails with a thrown
error whose message contains both the numeric status code and the response
body text, falling back to the fixed placeholder `Unknown error` when the
body cannot be read; a transport-level rejection propagates through the
distinct `network` error constructor, which carries no status code. Each
call consumes exactly the outcome of its single fetch by construction. -/
theorem submitItem_error_content (status : Nat) (body : String)
    (j : Option LostItemResponse) (hstatus : respOk status = false) :
    (∃ m, submitLostItem (.response status (some body) j) = .error (.thrown m)
       ∧ containsStr m (toString status) ∧ containsStr m body)
    ∧ (∃ m, submitLostItem (.response status none j) = .error (.thrown m)
       ∧ containsStr m (toString status) ∧ containsStr m "Unknown error")
    ∧ (∃ m, submitFoundItem (.response status (some body) j) = .error (.thrown m)
       ∧ containsStr m (toString status) ∧ containsStr m body)
    ∧ (∀ nm, submitLostItem (.networkError nm) = .error (.network nm))
    ∧ (∀ nm, submitFoundItem (.networkError nm) = .error (.network nm))
    ∧ (∀ nm m, ApiError.network nm ≠ ApiError.thrown m) := by
  refine ⟨?_, ?_, ?_, fun nm => rfl, fun nm => rfl, fun nm m h => by cases h⟩
  · refine ⟨"Failed to submit lost item: " ++ toString status ++ " - " ++ body, ?_, ?_, ?_⟩
    · simp [submitLostItem, hstatus, errorTextOf]
    · exact ⟨"Failed to submit lost item: ", " - " ++ body, by
        simp [String.append_assoc]⟩
    · exact ⟨"Failed to submit lost item: " ++ toString status ++ " - ", "", by
        simp [String.append_assoc]⟩
  · refine ⟨"Failed to submit lost item: " ++ toString status ++ " - " ++ "Unknown error",
      ?_, ?_, ?_⟩
    · simp [submitLostItem, hstatus, errorTextOf]
    · exact ⟨"Failed to submit lost item: ", " - " ++ "Unknown error", by
        simp [String.append_assoc]⟩
    · exact ⟨"Failed to submit lost item: " ++ toString status ++ " - ", "", by
        simp [String.append_assoc]⟩
  · refine ⟨"Failed to submit found item: " ++ toString status ++ " - " ++ body, ?_, ?_, ?_⟩
    · simp [submitFoundItem, hstatus, errorTextOf]
    · exact ⟨"Failed to submit found item: ", " - " ++ body, by
        simp [String.append_assoc]⟩
    · exact ⟨"Failed to submit found item: " ++ toString status ++ " - ", "", by
        simp [String.append_assoc]⟩

/-- C4 witness: a simulated HTTP 500 with body `boom` yields a thrown error
whose message contains `500` and `boom`. -/
theorem submitItem_error_content_witness :
    respOk 500 = false
    ∧ (∃ m, submitLostItem (.response 500 (some "boom") none) = .error (.thrown m)
        ∧ containsStr m (toString 500) ∧ containsStr m "boom") :=
  ⟨by decide, (submitItem_error_content 500 "boom" none (by decide)).1⟩

/-- C5: the `similarity` field of the display match is `round(s * 100)` with
round-half-up semantics, i.e. ⌊s·100 + 1/2⌋, for every input; in particular
a similarity of 0.744 displays as 74 and a similarity of 0.745 (the exact
half case) as 75; the value is a pure function of the input, so repeated
computation gives the same result. -/
theorem convertToMatch_similarity_rounding (t : String → String) (isLost : Bool)
    (baseUrl : String) (high : ℚ) (mr : MatchResult) :
    (convertToMatch t isLost baseUrl high mr).similarity = ⌊mr.similarity * 100 + 1/2⌋
    ∧ (convertToMatch t isLost baseUrl high
        { item := mr.item, similarity := 744/1000 }).similarity = 74
    ∧ (convertToMatch t isLost baseUrl high
        { item := mr.item, similarity := 745/1000 }).similarity = 75
    ∧ (convertToMatch t isLost baseUrl high mr).similarity
        = (convertToMatch t isLost baseUrl high mr).similarity := by
  refine ⟨rfl, ?_, ?_, rfl⟩
  · simp only [convertToMatch, mathRound]
    norm_num
  · simp only [convertToMatch, mathRound]
    norm_num

/-- C6 counterexample: a transport-level network failure does not surface
the generic `Backend is not reachable` error — `checkHealth` does not catch
the rejection of its `fetch`, so the original transport error propagates. -/
theorem checkHealth_network_not_generic :
    checkHealth (.networkError "Network request failed")
      ≠ Except.error (ApiError.thrown "Backend is not reachable") := by
  simp [checkHealth]

/-- C6 amended: on any non-success HTTP status, `checkHealth` fails with the
generic `Backend is not reachable` error, independently of the response
body (which is never forwarded); a transport-level network error instead
propagates as the original rejection, which also carries no response body. -/
theorem checkHealth_amended (status : Nat) (bodyText : Option String)
    (j : Option HealthResponse) (hstatus : respOk status = false) :
    checkHealth (.response status bodyText j)
      = .error (.thrown "Backend is not reachable")
    ∧ (∀ m, checkHealth (FetchOutcome.networkError m : FetchOutcome HealthResponse)
        = .error (.network m)) :=
  ⟨by simp [checkHealth, hstatus], fun m => rfl⟩

/-- C6 amended witness: concrete instances at status 503 with a body. -/
theorem checkHealth_amended_witness :
    respOk 503 = false
    ∧ checkHealth (.response 503 (some "overloaded") none)
        = .error (.thrown "Backend is not reachable") :=
  ⟨by decide, (checkHealth_amended 503 (some "overloaded") none (by decide)).1⟩

/-- Payload whose optional `description` is present but empty, exercising
the JS-truthiness guard of `buildFormData`. -/
def payloadEmptyDesc : SubmitItemPayload :=
  { file := { uri := "file:///tmp/img.jpg", name := "img.jpg", type := "image/jpeg" }
    title := "T"
    description := some ""
    locationType := "library"
    locationDetail := none
    timeFrame := "today" }

/-- C7 counterexample: a payload whose optional `description` field is
present (but the empty string) produces a multipart body with no
`description` field at all — `buildFormData` guards on JS truthiness, not
on presence. -/
theorem buildFormData_empty_description_omitted :
    payloadEmptyDesc.description = some ""
    ∧ (buildFormData payloadEmptyDesc).lookup "description" = none := by
  exact ⟨rfl, by decide⟩

/-- C7 amended: the multipart body always carries `file` (with the
payload's uri, name and type preserved), `title`, `location_type` and
`time_frame` with the snake_case wire keys translating the camelCase
in-memory fields; `description` and `location_detail` appear exactly when
the corresponding optional field is present AND non-empty (JS truthiness),
in which case they carry the field's value. -/
theorem buildFormData_fields (p : SubmitItemPayload) :
    (buildFormData p).lookup "file"
      = some (FormValue.file p.file.uri p.file.name p.file.type)
    ∧ (buildFormData p).lookup "title" = some (FormValue.str p.title)
    ∧ (buildFormData p).lookup "location_type" = some (FormValue.str p.locationType)
    ∧ (buildFormData p).lookup "time_frame" = some (FormValue.str p.timeFrame)
    ∧ ((buildFormData p).lookup "description").isSome = optTruthy p.description
    ∧ (∀ d, p.description = some d → strTruthy d = true →
        (buildFormData p).lookup "description" = some (FormValue.str d))
    ∧ ((buildFormData p).lookup "location_detail").isSome = optTruthy p.locationDetail
    ∧ (∀ d, p.locationDetail = some d → strTruthy d = true →
        (buildFormData p).lookup "location_detail" = some (FormValue.str d)) := by
  obtain ⟨⟨u, n, ty⟩, title, d, lt, ld, tf⟩ := p
  have k1 : (("title" : String) == "file") = false := by decide
  have k2 : (("location_type" : String) == "file") = false := by decide
  have k3 : (("location_type" : String) == "title") = false := by decide
  have k4 : (("location_type" : String) == "description") = false := by decide
  have k5 : (("time_frame" : String) == "file") = false := by decide
  have k6 : (("time_frame" : String) == "title") = false := by decide
  have k7 : (("time_frame" : String) == "description") = false := by decide
  have k8 : (("time_frame" : String) == "location_type") = false := by decide
  have k9 : (("time_frame" : String) == "location_detail") = false := by decide
  have k10 : (("description" : String) == "file") = false := by decide
  have k11 : (("description" : String) == "title") = false := by decide
  have k12 : (("description" : String) == "location_type") = false := by decide
  have k13 : (("description" : String) == "location_detail") = false := by decide
  have k14 : (("description" : String) == "time_frame") = false := by decide
  have k15 : (("location_detail" : String) == "file") = false := by decide
  have k16 : (("location_detail" : String) == "title") = false := by decide
  have k17 : (("location_detail" : String) == "description") = false := by decide
  have k18 : (("location_detail" : String) == "location_type") = false := by decide
  have k19 : (("location_detail" : String) == "time_frame") = false := by decide
  cases d <;> cases ld <;>
    simp only [buildFormData, optTruthy] <;>
    (try split_ifs) <;>
    simp_all [List.lookup, k1, k2, k3, k4, k5, k6, k7, k8, k9, k10, k11, k12,
      k13, k14, k15, k16, k17, k18, k19]

/-- C7 amended witness: on a concrete payload with a non-empty description
and an absent location detail, the description field is present with its
value and the location detail field is absent. -/
theorem buildFormData_fields_witness :
    (buildFormData
      { file := { uri := "u", name := "n", type := "t" }, title := "T",
        description := some "red bag", locationType := "library",
        locationDetail := none, timeFrame := "today" }).lookup "description"
      = some (FormValue.str "red bag") :=
  (buildFormData_fields _).2.2.2.2.2.1 "red bag" rfl (by decide)

/-- C8: the `ItemCard` high-match indicator is shown exactly when some match
has rounded-percentage similarity ≥ 75, a hard-coded constant; it is
independent of the configured `HIGH_MATCH_THRESHOLD`: over any list of
backend results converted by `convertToMatch`, changing the high threshold
does not change the indicator. -/
theorem hasHighMatch_spec (results : List Match) (t : String → String)
    (isLost : Bool) (baseUrl : String) (high high2 : ℚ) (mrs : List MatchResult) :
    (hasHighMatch results = true ↔ ∃ m ∈ results, 75 ≤ m.similarity)
    ∧ hasHighMatch (mrs.map (convertToMatch t isLost baseUrl high))
        = hasHighMatch (mrs.map (convertToMatch t isLost baseUrl high2)) := by
  constructor
  · simp [hasHighMatch, List.any_eq_true]
  · induction mrs with
    | nil => rfl
    | cons mr rest ih =>
        simp only [List.map_cons, hasHighMatch, List.any_cons] at ih ⊢
        rw [← ih]
        rfl

/-- A string with a non-empty left part stays non-empty after append. -/
theorem append_ne_empty_of_left (a b : String) (h : a ≠ "") : a ++ b ≠ "" := by
  intro hc
  apply h
  have hd := congrArg String.data hc
  rw [String.data_append] at hd
  have hnil : ("" : String).data = [] := rfl
  rw [hnil] at hd
  have ha : a.data = [] := (List.append_eq_nil.mp hd).1
  exact String.ext (by rw [ha, hnil])

/-- C9: when the form passes validation, a throw from the submit call moves
the screen state atomically to the error state: only `error` (set from the
thrown error's message, or the generic message for a non-`Error` value) and
`isSubmitting` (reset to `false`) change, while the matches list, the
success-modal visibility and all form fields are left untouched; the form
is cleared and the success modal shown only on the success path. -/
theorem handleSubmit_error_atomic (t : String → String) (st : ScreenState)
    (e : Option String) (r : LostItemResponse)
    (himg : st.formData.image.isNone = false)
    (hwhere : st.formData.whereLoc.isEmpty = false)
    (hwhen : st.formData.whenTime.isEmpty = false) :
    handleSubmit t st (.failure e)
      = { st with error := some (e.getD (t "error_generic")), isSubmitting := false }
    ∧ handleSubmit t st (.success r)
      = { st with results := r.results, showSuccessModal := true,
                  formData := emptyFormData, error := none, isSubmitting := false } := by
  constructor <;> simp [handleSubmit, himg, hwhere, hwhen]

/-- C9 witness: concrete valid state, failed call with message `boom`. -/
theorem handleSubmit_error_atomic_witness :
    handleSubmit (fun _ => "tr")
      { formData := { image := some { uri := "u", name := "n", type := "t" },
                      whereLoc := "library", specificPlace := "", whenTime := "today",
                      description := "" },
        results := [mrLow], isSubmitting := true, showSuccessModal := false,
        error := none }
      (.failure (some "boom"))
      = { formData := { image := some { uri := "u", name := "n", type := "t" },
                        whereLoc := "library", specificPlace := "", whenTime := "today",
                        description := "" },
          results := [mrLow], isSubmitting := false, showSuccessModal := false,
          error := some "boom" } :=
  (handleSubmit_error_atomic (fun _ => "tr")
    { formData := { image := some { uri := "u", name := "n", type := "t" },
                    whereLoc := "library", specificPlace := "", whenTime := "today",
                    description := "" },
      results := [mrLow], isSubmitting := true, showSuccessModal := false,
      error := none }
    (some "boom") { results := [] } rfl rfl rfl).1

/-- C10: `handleSubmit` issues a request exactly when image, location and
time frame are all non-empty; each missing field gives an early return that
only sets the corresponding field-specific error; and every issued payload
has a non-empty title, equal to the description when that is non-empty and
to the generated `Lost/Found item at <where>` string otherwise. -/
theorem handleSubmit_validation_title (isLost : Bool) (fd : ItemFormData) :
    ((submitRequest isLost fd).isSome
      ↔ fd.image.isSome = true ∧ fd.whereLoc.isEmpty = false ∧ fd.whenTime.isEmpty = false)
    ∧ (∀ p, submitRequest isLost fd = some p →
        p.title ≠ ""
        ∧ p.title = strOr fd.description
            ((if isLost then "Lost" else "Found") ++ " item at " ++ fd.whereLoc))
    ∧ (∀ t st o, st.formData = fd → fd.image.isNone = true →
        handleSubmit t st o = { st with error := some (t "error_image_required") })
    ∧ (∀ t st o, st.formData = fd → fd.image.isNone = false →
        fd.whereLoc.isEmpty = true →
        handleSubmit t st o = { st with error := some (t "error_location_required") })
    ∧ (∀ t st o, st.formData = fd → fd.image.isNone = false →
        fd.whereLoc.isEmpty = false → fd.whenTime.isEmpty = true →
        handleSubmit t st o = { st with error := some (t "error_time_required") }) := by
  refine ⟨?_, ?_, ?_, ?_, ?_⟩
  · cases himg : fd.image with
    | none => simp [submitRequest, himg]
    | some img =>
        by_cases hw : fd.whereLoc.isEmpty <;>
          by_cases hn : fd.whenTime.isEmpty <;>
            simp [submitRequest, himg, hw, hn]
  · intro p hp
    cases himg : fd.image with
    | none => simp [submitRequest, himg] at hp
    | some img =>
        by_cases hw : fd.whereLoc.isEmpty
        · simp [submitRequest, himg, hw] at hp
        · by_cases hn : fd.whenTime.isEmpty
          · simp [submitRequest, himg, hw, hn] at hp
          · simp only [submitRequest, himg, hw, hn, if_neg, Bool.false_eq_true,
              not_false_eq_true, Option.some.injEq] at hp
            subst hp
            refine ⟨?_, rfl⟩
            simp only [payloadOfForm, strOr]
            split
            · rename_i htr
              intro hc
              rw [hc] at htr
              simp [strTruthy] at htr
              exact absurd htr (by decide)
            · apply append_ne_empty_of_left
              apply append_ne_empty_of_left
              cases isLost <;> decide
  · intro t st o hst himg
    simp [handleSubmit, hst, himg]
  · intro t st o hst himg hw
    simp [handleSubmit, hst, himg, hw]
  · intro t st o hst himg hw hn
    simp [handleSubmit, hst, himg, hw, hn]

/-- C10 witness: on a concrete form missing only the image, no request is
issued and the image-specific error is set. -/
theorem handleSubmit_validation_title_witness :
    ¬ (submitRequest true
        { image := none, whereLoc := "library", specificPlace := "",
          whenTime := "today", description := "" }).isSome
    ∧ handleSubmit (fun k => k)
        { formData := { image := none, whereLoc := "library", specificPlace := "",
                        whenTime := "today", description := "" },
          results := [], isSubmitting := false, showSuccessModal := false, error := none }
        (.failure none)
      = { formData := { image := none, whereLoc := "library", specificPlace := "",
                        whenTime := "today", description := "" },
          results := [], isSubmitting := false, showSuccessModal := false,
          error := some "error_image_required" } := by
  constructor
  · intro hc
    have h := (handleSubmit_validation_title true
      { image := none, whereLoc := "library", specificPlace := "",
        whenTime := "today", description := "" }).1.mp hc
    simpa using h.1
  · exact (handleSubmit_validation_title true
      { image := none, whereLoc := "library", specificPlace := "",
        whenTime := "today", description := "" }).2.2.1 (fun k => k) _ (.failure none) rfl rfl
end Mafqood
